import Mathlib

/-
Verification development for the event-derivation engine and reaction
dispatcher of the stream-assistant repository.

Part 1 embeds `src/cs2_gsi.py` (the state tracker): the tracked state,
snapshots, and `_process_game_state` with its `_emit_*` helpers.
Part 2 embeds the dispatcher logic of `src/iris_brain.py`.

Conventions of the embedding:
- Python dicts with a fixed set of watched keys become structures whose
  fields are `Option`-valued; an absent key is `none` and `d.get(k, cur)`
  becomes `Option.getD`.  A sub-dict that is absent or empty (both falsy
  in Python, hence skipped identically by the source) is `none` at the
  section level; a present sub-dict that merely lacks the watched keys is
  `some` of the all-`none` record.
- Python `int` is `Int`; timestamps and `random.random()` draws are `ℚ`
  (the source only ever compares them, and every literal involved is an
  exact rational).  The single float division in the source
  (`kills / max(1, deaths)`) is modelled as exact rational division.
- Methods that mutate `self` become functions `state → state × result`.
- The event callback, the Flask routing, logging and the `events_history`
  deque only transport the event list; the functions here return the
  emitted events in callback order instead.
- `GameEvent.timestamp` (`time.time()` at creation) is not modelled; no
  source branch reads it.
-/

namespace IrisSpec

/-- Values stored in an event's `data` dict: Python ints, bools, strings,
and the one float (`kd_ratio`), modelled as an exact rational. -/
inductive Val where
  | i : Int → Val
  | b : Bool → Val
  | s : String → Val
  | q : ℚ → Val
deriving DecidableEq

/-- Dataclass `GameEvent` from `src/cs2_gsi.py`, minus the wall-clock
`timestamp` field, which nothing reads. -/
structure GameEvent where
  event_type : String
  data : List (String × Val)
deriving DecidableEq

/-- Dataclass `PlayerState` of `src/cs2_gsi.py`. -/
structure PlayerState where
  name : String := ""
  team : String := ""
  health : Int := 100
  armor : Int := 0
  helmet : Bool := false
  money : Int := 0
  round_kills : Int := 0
  round_killhs : Int := 0
  equip_value : Int := 0
  kills : Int := 0
  assists : Int := 0
  deaths : Int := 0
  mvps : Int := 0
  score : Int := 0
  weapon : String := ""
deriving DecidableEq

/-- Dataclass `RoundState` of `src/cs2_gsi.py`. -/
structure RoundState where
  phase : String := ""
  bomb : String := ""
  win_team : String := ""
deriving DecidableEq

/-- Dataclass `MapState` of `src/cs2_gsi.py`. -/
structure MapState where
  name : String := ""
  mode : String := ""
  phase : String := ""
  round : Int := 0
  ct_score : Int := 0
  t_score : Int := 0
deriving DecidableEq

/-- One entry of the `player.weapons` dict: only the `state` and `name`
keys are read by the source loop. The dict is modelled as a list in
iteration (insertion) order. -/
structure WeaponSnap where
  state : Option String := none
  name : Option String := none
deriving DecidableEq

/-- The `player.state` sub-dict of a snapshot. -/
structure PlayerStateSnap where
  health : Option Int := none
  armor : Option Int := none
  helmet : Option Bool := none
  money : Option Int := none
  round_kills : Option Int := none
  round_killhs : Option Int := none
  equip_value : Option Int := none
deriving DecidableEq

/-- The `player.match_stats` sub-dict of a snapshot. -/
structure MatchStatsSnap where
  kills : Option Int := none
  assists : Option Int := none
  deaths : Option Int := none
  mvps : Option Int := none
  score : Option Int := none
deriving DecidableEq

/-- The `player` section of a snapshot. `state` and `match_stats` are
read with `.get(key, {})`, so an absent sub-dict behaves exactly like the
all-`none` record. -/
structure PlayerSnap where
  name : Option String := none
  team : Option String := none
  state : PlayerStateSnap := {}
  match_stats : MatchStatsSnap := {}
  weapons : List WeaponSnap := []
deriving DecidableEq

/-- The `round` section of a snapshot. -/
structure RoundSnap where
  phase : Option String := none
  bomb : Option String := none
  win_team : Option String := none
deriving DecidableEq

/-- A `team_ct` / `team_t` sub-dict: only `score` is read. -/
structure TeamSnap where
  score : Option Int := none
deriving DecidableEq

/-- The `map` section of a snapshot. -/
structure MapSnap where
  name : Option String := none
  mode : Option String := none
  phase : Option String := none
  round : Option Int := none
  team_ct : TeamSnap := {}
  team_t : TeamSnap := {}
deriving DecidableEq

/-- A full game-state snapshot as posted to the GSI endpoint.  A section
that is `none` is absent (or empty, which the source treats identically
because an empty dict is falsy). -/
structure Snapshot where
  player : Option PlayerSnap := none
  round : Option RoundSnap := none
  map : Option MapSnap := none
deriving DecidableEq

/-- The mutable state of `CS2GameStateIntegration` that
`_process_game_state` reads or writes. -/
structure TrackerState where
  player : PlayerState := {}
  round : RoundState := {}
  map : MapState := {}
  previous_state : Snapshot := {}
  kill_streak : Int := 0
  round_start_kills : Int := 0
  clutch_situation : Bool := false
  clutch_enemies : Int := 0
deriving DecidableEq

/-- The tracker state right after `__init__`. -/
def trackerInit : TrackerState := {}

/-- Lowercasing of a single character, modelling Python `str.lower` on
the alphabets the source compares (ASCII and Russian Cyrillic, the only
scripts occurring in its keyword lists and team names). -/
def lowerChar (c : Char) : Char :=
  if 'A' ≤ c ∧ c ≤ 'Z' then Char.ofNat (c.toNat + 32)
  else if 'А' ≤ c ∧ c ≤ 'Я' then Char.ofNat (c.toNat + 32)
  else if c = 'Ё' then 'ё'
  else c

/-- Python `s.lower()` (see `lowerChar` for the covered alphabets). -/
def pyLower (s : String) : String := ⟨s.data.map lowerChar⟩

/-- First weapon whose `state` equals `"active"`, returning its name
(with Python's `.get('name', '')` default); `none` if no weapon is
active, in which case the source leaves `self.player.weapon` unchanged. -/
def activeWeapon : List WeaponSnap → Option String
  | [] => none
  | w :: ws => if w.state = some "active" then some (w.name.getD "") else activeWeapon ws

/-- The player-field update of `_process_game_state` (lines 106-125):
each watched key is read with the current value as default. -/
def updatedPlayer (pd : PlayerSnap) (p : PlayerState) : PlayerState :=
  { name := pd.name.getD p.name
    team := pd.team.getD p.team
    health := pd.state.health.getD p.health
    armor := pd.state.armor.getD p.armor
    helmet := pd.state.helmet.getD p.helmet
    money := pd.state.money.getD p.money
    round_kills := pd.state.round_kills.getD p.round_kills
    round_killhs := pd.state.round_killhs.getD p.round_killhs
    equip_value := pd.state.equip_value.getD p.equip_value
    kills := pd.match_stats.kills.getD p.kills
    assists := pd.match_stats.assists.getD p.assists
    deaths := pd.match_stats.deaths.getD p.deaths
    mvps := pd.match_stats.mvps.getD p.mvps
    score := pd.match_stats.score.getD p.score
    weapon := (activeWeapon pd.weapons).getD p.weapon }

/-- The kill-tier selection rule of `_emit_kill_event`, as a function of
the (already updated) `round_kills` counter. -/
def killTierName (rk : Int) : String :=
  if rk ≥ 5 then "ace"
  else if rk ≥ 4 then "quadra_kill"
  else if rk ≥ 3 then "triple_kill"
  else if rk ≥ 2 then "double_kill"
  else "kill"

/-- Source `_emit_kill_event`: bumps the kill streak, then emits exactly one
event whose tier is chosen from the updated `round_kills` by the
`if/elif` ladder; the `ace` case additionally tags `data['ace'] = True`. -/
def emitKillEvent (kill_count : Int) (s : TrackerState) : TrackerState × List GameEvent :=
  let s' := { s with kill_streak := s.kill_streak + kill_count }
  let base : List (String × Val) :=
    [("kills_this_action", .i kill_count),
     ("round_kills", .i s'.player.round_kills),
     ("total_kills", .i s'.player.kills),
     ("kill_streak", .i s'.kill_streak),
     ("headshot", .b (decide (s'.player.round_killhs > 0))),
     ("weapon", .s s'.player.weapon),
     ("clutch", .b s'.clutch_situation),
     ("clutch_enemies", .i s'.clutch_enemies)]
  (s',
   if s'.player.round_kills ≥ 5 then [⟨"ace", base ++ [("ace", .b true)]⟩]
   else if s'.player.round_kills ≥ 4 then [⟨"quadra_kill", base⟩]
   else if s'.player.round_kills ≥ 3 then [⟨"triple_kill", base⟩]
   else if s'.player.round_kills ≥ 2 then [⟨"double_kill", base⟩]
   else [⟨"kill", base⟩])

/-- Source `_emit_death_event`: resets the kill streak and emits one `death`
event (`kd_ratio` is Python float division, modelled exactly in `ℚ`). -/
def emitDeathEvent (s : TrackerState) : TrackerState × List GameEvent :=
  let s' := { s with kill_streak := 0 }
  (s', [⟨"death",
    [("total_deaths", .i s'.player.deaths),
     ("kd_ratio", .q ((s'.player.kills : ℚ) / ((max 1 s'.player.deaths : Int) : ℚ))),
     ("round", .i s'.map.round)]⟩])

/-- Source `_emit_damage_event`: `low_health` when the new health is ≤ 25, else
`heavy_damage` when the drop is ≥ 50, else nothing. -/
def emitDamageEvent (damage : Int) (s : TrackerState) : List GameEvent :=
  let base : List (String × Val) :=
    [("damage", .i damage),
     ("current_health", .i s.player.health),
     ("armor", .i s.player.armor)]
  if s.player.health ≤ 25 then [⟨"low_health", base⟩]
  else if damage ≥ 50 then [⟨"heavy_damage", base⟩]
  else []

/-- Source `_emit_round_start_event`: resets kill-streak bookkeeping and the
clutch flag, then emits `round_start` (with `eco_round` tagged when money
is below 2000). -/
def emitRoundStartEvent (s : TrackerState) : TrackerState × List GameEvent :=
  let s' := { s with kill_streak := 0, round_start_kills := s.player.kills,
                     clutch_situation := false }
  let base : List (String × Val) :=
    [("round", .i s'.map.round),
     ("ct_score", .i s'.map.ct_score),
     ("t_score", .i s'.map.t_score),
     ("money", .i s'.player.money),
     ("equip_value", .i s'.player.equip_value)]
  let data := if s'.player.money < 2000 then base ++ [("eco_round", .b true)] else base
  (s', [⟨"round_start", data⟩])

/-- Source `_emit_round_end_event` (pure): win/loss from lowercased team names,
with an empty `win_team` counted as a loss; `mvp_candidate` tagged at
three or more kills in the round. -/
def emitRoundEndEvent (s : TrackerState) : List GameEvent :=
  let round_kills := s.player.kills - s.round_start_kills
  let won : Bool :=
    if s.round.win_team ≠ "" then decide (pyLower s.round.win_team = pyLower s.player.team)
    else false
  let base : List (String × Val) :=
    [("round", .i s.map.round),
     ("win_team", .s s.round.win_team),
     ("player_team", .s s.player.team),
     ("won", .b won),
     ("round_kills", .i round_kills),
     ("clutch_win", .b (s.clutch_situation && decide (round_kills > 0)))]
  let data := if round_kills ≥ 3 then base ++ [("mvp_candidate", .b true)] else base
  [⟨"round_end", data⟩]

/-- Source `_emit_bomb_planted_event` (pure). -/
def bombPlantedEvent (s : TrackerState) : GameEvent :=
  ⟨"bomb_planted", [("round", .i s.map.round), ("player_team", .s s.player.team)]⟩

/-- Source `_emit_bomb_defused_event` (pure): tags `ninja_defuse` when the
player's health is at most 10. -/
def bombDefusedEvent (s : TrackerState) : GameEvent :=
  ⟨"bomb_defused",
   [("round", .i s.map.round), ("player_team", .s s.player.team),
    ("ninja_defuse", .b (decide (s.player.health ≤ 10)))]⟩

/-- Source `_emit_bomb_exploded_event` (pure). -/
def bombExplodedEvent (s : TrackerState) : GameEvent :=
  ⟨"bomb_exploded", [("round", .i s.map.round), ("player_team", .s s.player.team)]⟩

/-- Source `_emit_match_end_event` (pure): win iff the tracked side's score is
strictly ahead on the final scoreboard. -/
def matchEndEvent (s : TrackerState) : GameEvent :=
  ⟨"match_end",
   [("ct_score", .i s.map.ct_score),
    ("t_score", .i s.map.t_score),
    ("player_team", .s s.player.team),
    ("won", .b ((s.player.team = "CT" && decide (s.map.ct_score > s.map.t_score)) ||
                (s.player.team = "T" && decide (s.map.t_score > s.map.ct_score)))),
    ("kills", .i s.player.kills),
    ("deaths", .i s.player.deaths),
    ("assists", .i s.player.assists),
    ("mvps", .i s.player.mvps),
    ("map", .s s.map.name)]⟩

/-- The player block of `_process_game_state` (lines 95-134): update the
player fields, then derive kill, death and damage events from the
captured old counters.  (The source also captures `old_round_kills`,
which it never reads.) -/
def processPlayer (pd : PlayerSnap) (s : TrackerState) : TrackerState × List GameEvent :=
  let p' := updatedPlayer pd s.player
  let s1 := { s with player := p' }
  let kr := if p'.kills > s.player.kills then emitKillEvent (p'.kills - s.player.kills) s1
            else (s1, [])
  let dr := if p'.deaths > s.player.deaths then emitDeathEvent kr.1 else (kr.1, [])
  let de := if p'.health < s.player.health ∧ p'.health > 0 then
              emitDamageEvent (s.player.health - p'.health) dr.1
            else []
  (dr.1, kr.2 ++ dr.2 ++ de)

/-- The round block of `_process_game_state` (lines 136-158): update the
round fields, then fire the edge-triggered phase and bomb transitions. -/
def processRound (rd : RoundSnap) (s : TrackerState) : TrackerState × List GameEvent :=
  let old_phase := s.round.phase
  let old_bomb := s.round.bomb
  let r' : RoundState :=
    { phase := rd.phase.getD old_phase,
      bomb := rd.bomb.getD old_bomb,
      win_team := rd.win_team.getD s.round.win_team }
  let s1 := { s with round := r' }
  let sr := if r'.phase = "freezetime" ∧ old_phase ≠ "freezetime" then emitRoundStartEvent s1
            else (s1, [])
  let e2 := if r'.phase = "over" ∧ old_phase ≠ "over" then emitRoundEndEvent sr.1 else []
  let e3 := if r'.bomb = "planted" ∧ old_bomb ≠ "planted" then [bombPlantedEvent sr.1] else []
  let e4 := if r'.bomb = "defused" ∧ old_bomb ≠ "defused" then [bombDefusedEvent sr.1] else []
  let e5 := if r'.bomb = "exploded" ∧ old_bomb ≠ "exploded" then [bombExplodedEvent sr.1] else []
  (sr.1, sr.2 ++ e2 ++ e3 ++ e4 ++ e5)

/-- The map block of `_process_game_state` (lines 160-175): update the
map fields, then emit `match_end` whenever the updated phase equals
`"gameover"` — the source has no edge guard here (it also captures
`old_round`, which it never reads). -/
def processMap (md : MapSnap) (s : TrackerState) : TrackerState × List GameEvent :=
  let m' : MapState :=
    { name := md.name.getD s.map.name,
      mode := md.mode.getD s.map.mode,
      phase := md.phase.getD s.map.phase,
      round := md.round.getD s.map.round,
      ct_score := md.team_ct.score.getD s.map.ct_score,
      t_score := md.team_t.score.getD s.map.t_score }
  let s1 := { s with map := m' }
  (s1, if m'.phase = "gameover" then [matchEndEvent s1] else [])

/-- Source `_process_game_state` (`apply(snapshot)` in the spec's contract): the
three watched field groups in source order, each skipped when its section
is absent, and finally `previous_state = data`.  Events are returned in
callback order. -/
def processGameState (data : Snapshot) (s : TrackerState) : TrackerState × List GameEvent :=
  let pr := match data.player with
            | some pd => processPlayer pd s
            | none => (s, [])
  let rr := match data.round with
            | some rd => processRound rd pr.1
            | none => (pr.1, [])
  let mr := match data.map with
            | some md => processMap md rr.1
            | none => (rr.1, [])
  ({ mr.1 with previous_state := data }, pr.2 ++ rr.2 ++ mr.2)

/-- The five kill-tier event names. -/
def killTierNames : List String :=
  ["kill", "double_kill", "triple_kill", "quadra_kill", "ace"]

/-- Whether an event is one of the five kill-tier events. -/
def isKillTier (e : GameEvent) : Bool := killTierNames.contains e.event_type

/-- Whether an event is one of the two damage events. -/
def isDamage (e : GameEvent) : Bool :=
  e.event_type = "low_health" || e.event_type = "heavy_damage"

/-- A snapshot with all three sections absent. -/
def emptySnap : Snapshot := {}

/-- A snapshot whose three sections are present (non-empty dicts in the
source's terms) but contain none of the watched keys. -/
def hollowSnap : Snapshot := { player := some {}, round := some {}, map := some {} }

/-- A snapshot reporting only that the map phase is `"gameover"`. -/
def gameoverSnap : Snapshot := { map := some { phase := some "gameover" } }

/-- The event lists produced by the player block, re-expressed against the
updated player directly (the intermediate states differ from
`{ s with player := … }` only in `kill_streak`, which none of the three
payloads read). -/
lemma processPlayer_events (pd : PlayerSnap) (s : TrackerState) :
    (processPlayer pd s).2 =
      (if (updatedPlayer pd s.player).kills > s.player.kills
         then (emitKillEvent ((updatedPlayer pd s.player).kills - s.player.kills)
                 { s with player := updatedPlayer pd s.player }).2 else []) ++
      (if (updatedPlayer pd s.player).deaths > s.player.deaths
         then (emitDeathEvent { s with player := updatedPlayer pd s.player }).2 else []) ++
      (if (updatedPlayer pd s.player).health < s.player.health ∧
            (updatedPlayer pd s.player).health > 0
         then emitDamageEvent (s.player.health - (updatedPlayer pd s.player).health)
                { s with player := updatedPlayer pd s.player } else []) := by
  unfold processPlayer
  dsimp only
  split_ifs <;> rfl

lemma emitKillEvent_filter_killTier (kc : Int) (t : TrackerState) :
    ((emitKillEvent kc t).2.filter isKillTier).map GameEvent.event_type
      = [killTierName t.player.round_kills] := by
  unfold emitKillEvent killTierName
  dsimp only
  split_ifs <;> rfl

lemma emitKillEvent_filter_damage (kc : Int) (t : TrackerState) :
    (emitKillEvent kc t).2.filter isDamage = [] := by
  unfold emitKillEvent
  dsimp only
  split_ifs <;> rfl

lemma emitDeathEvent_filter_killTier (t : TrackerState) :
    (emitDeathEvent t).2.filter isKillTier = [] := rfl

lemma emitDeathEvent_filter_damage (t : TrackerState) :
    (emitDeathEvent t).2.filter isDamage = [] := rfl

lemma emitDamageEvent_filter_killTier (d : Int) (t : TrackerState) :
    (emitDamageEvent d t).filter isKillTier = [] := by
  unfold emitDamageEvent
  dsimp only
  split_ifs <;> rfl

lemma emitDamageEvent_filter_damage (d : Int) (t : TrackerState) :
    ((emitDamageEvent d t).filter isDamage).map GameEvent.event_type
      = (if t.player.health ≤ 25 then ["low_health"]
         else if d ≥ 50 then ["heavy_damage"] else []) := by
  unfold emitDamageEvent
  dsimp only
  split_ifs <;> rfl

lemma processRound_filter_killTier (rd : RoundSnap) (s : TrackerState) :
    (processRound rd s).2.filter isKillTier = [] := by
  unfold processRound
  dsimp only
  split_ifs <;> rfl

lemma processRound_filter_damage (rd : RoundSnap) (s : TrackerState) :
    (processRound rd s).2.filter isDamage = [] := by
  unfold processRound
  dsimp only
  split_ifs <;> rfl

lemma processMap_filter_killTier (md : MapSnap) (s : TrackerState) :
    (processMap md s).2.filter isKillTier = [] := by
  unfold processMap
  dsimp only
  split_ifs <;> rfl

lemma processMap_filter_damage (md : MapSnap) (s : TrackerState) :
    (processMap md s).2.filter isDamage = [] := by
  unfold processMap
  dsimp only
  split_ifs <;> rfl

/-- C1: the claim says every watched transition is edge-triggered and a
second byte-identical snapshot yields zero events, the match-phase
transition into game-over included.  The code's `match_end` branch has no
edge guard: with the map phase already `"gameover"` and an identical
snapshot (the tracked state is bit-for-bit unchanged by the second call),
`apply()` emits `match_end` again on the second call. -/
theorem c1_match_end_refires :
    ((processGameState gameoverSnap
        (processGameState gameoverSnap trackerInit).1).2.map GameEvent.event_type
      = ["match_end"]) ∧
    (processGameState gameoverSnap (processGameState gameoverSnap trackerInit).1).1
      = (processGameState gameoverSnap trackerInit).1 := by
  decide

/-- C4: when the kill counter increases, exactly one kill-tier event is
emitted for the delta, and its kind is the pure function
`killTierName` of the updated round-kill counter: 1 ↦ kill,
2 ↦ double_kill, 3 ↦ triple_kill, 4 ↦ quadra_kill, ≥5 ↦ ace. -/
theorem c4_kill_tier (s : TrackerState) (data : Snapshot) (pd : PlayerSnap)
    (hp : data.player = some pd)
    (hk : (updatedPlayer pd s.player).kills > s.player.kills) :
    ((processGameState data s).2.filter isKillTier).map GameEvent.event_type
      = [killTierName (updatedPlayer pd s.player).round_kills]
    ∧ killTierName 1 = "kill" ∧ killTierName 2 = "double_kill"
    ∧ killTierName 3 = "triple_kill" ∧ killTierName 4 = "quadra_kill"
    ∧ ∀ rk : Int, 5 ≤ rk → killTierName rk = "ace" := by
  refine ⟨?_, by decide, by decide, by decide, by decide, ?_⟩
  · obtain ⟨op, orr, om⟩ := data
    obtain rfl : op = some pd := hp
    cases orr <;> cases om <;>
      · show ((((processPlayer pd s).2 ++ _) ++ _).filter isKillTier).map GameEvent.event_type = _
        rw [processPlayer_events, if_pos hk]
        simp only [List.filter_append, List.map_append,
          processRound_filter_killTier, processMap_filter_killTier,
          emitKillEvent_filter_killTier,
          apply_ite (List.filter isKillTier),
          emitDeathEvent_filter_killTier, emitDamageEvent_filter_killTier,
          List.filter_nil, ite_self, List.append_nil, List.nil_append,
          List.map_nil]
  · intro rk h
    unfold killTierName
    rw [if_pos h]

/-- A player section reporting one more total kill with one kill in the
current round. -/
def c4Pd : PlayerSnap := { state := { round_kills := some 1 }, match_stats := { kills := some 1 } }

/-- Snapshot carrying `c4Pd`. -/
def c4Snap : Snapshot := { player := some c4Pd }

/-- Witness for C4: from the initial state, a snapshot raising kills 0→1
with one round kill produces exactly the single event `kill`. -/
theorem c4_kill_tier_witness :
    (updatedPlayer c4Pd trackerInit.player).kills > trackerInit.player.kills ∧
    ((processGameState c4Snap trackerInit).2.filter isKillTier).map GameEvent.event_type
      = ["kill"] :=
  ⟨by decide,
   ((c4_kill_tier trackerInit c4Snap c4Pd rfl (by decide)).1).trans (by decide)⟩

/-- C6: when health drops while staying positive, the damage-event rule
is exactly: `low_health` iff the new health is ≤ 25, else `heavy_damage`
iff the drop is ≥ 50, else nothing — one event at most, mutually
exclusive, `low_health` first. -/
theorem c6_damage_rule (s : TrackerState) (data : Snapshot) (pd : PlayerSnap)
    (hp : data.player = some pd)
    (hdec : (updatedPlayer pd s.player).health < s.player.health)
    (hpos : (updatedPlayer pd s.player).health > 0) :
    ((processGameState data s).2.filter isDamage).map GameEvent.event_type
      = (if (updatedPlayer pd s.player).health ≤ 25 then ["low_health"]
         else if s.player.health - (updatedPlayer pd s.player).health ≥ 50 then ["heavy_damage"]
         else []) := by
  obtain ⟨op, orr, om⟩ := data
  obtain rfl : op = some pd := hp
  cases orr <;> cases om <;>
    · show ((((processPlayer pd s).2 ++ _) ++ _).filter isDamage).map GameEvent.event_type = _
      rw [processPlayer_events, if_pos (And.intro hdec hpos)]
      simp only [List.filter_append, List.map_append,
        processRound_filter_damage, processMap_filter_damage,
        apply_ite (List.filter isDamage),
        emitKillEvent_filter_damage, emitDeathEvent_filter_damage,
        List.filter_nil, ite_self, List.append_nil, List.nil_append, List.map_nil,
        emitDamageEvent_filter_damage]

/-- Player section reporting health 20 (drop 100→20 from the initial
state). -/
def c6PdLow : PlayerSnap := { state := { health := some 20 } }

/-- Snapshot carrying `c6PdLow`. -/
def c6SnapLow : Snapshot := { player := some c6PdLow }

/-- Player section reporting health 60 (drop 100→60 from the initial
state). -/
def c6PdChip : PlayerSnap := { state := { health := some 60 } }

/-- Snapshot carrying `c6PdChip`. -/
def c6SnapChip : Snapshot := { player := some c6PdChip }

/-- Witness for C6, covering both spec scenarios: health 100→20 yields
exactly `low_health`, health 100→60 yields no damage event. -/
theorem c6_damage_rule_witness :
    ((processGameState c6SnapLow trackerInit).2.filter isDamage).map GameEvent.event_type
      = ["low_health"] ∧
    ((processGameState c6SnapChip trackerInit).2.filter isDamage).map GameEvent.event_type
      = [] :=
  ⟨(c6_damage_rule trackerInit c6SnapLow c6PdLow rfl (by decide) (by decide)).trans (by decide),
   (c6_damage_rule trackerInit c6SnapChip c6PdChip rfl (by decide) (by decide)).trans (by decide)⟩

lemma processPlayer_hollow (s : TrackerState) : processPlayer {} s = (s, []) := by
  unfold processPlayer updatedPlayer activeWeapon
  dsimp only
  simp [lt_irrefl]

lemma processRound_hollow (s : TrackerState) : processRound {} s = (s, []) := by
  unfold processRound
  dsimp only
  simp

lemma processMap_hollow (s : TrackerState) (h : s.map.phase ≠ "gameover") :
    processMap {} s = (s, []) := by
  unfold processMap
  dsimp only
  simp [h]

/-- C8: missing sub-structure is handled as "no change".  An absent
section is skipped entirely; a present section with none of the watched
keys leaves the tracked fields bit-for-bit unchanged and emits nothing
(outside the separately-reported `"gameover"` level-trigger defect, which
does not depend on any data being missing); and each individually missing
field keeps its previous value.  The embedding of `apply()` is a total
function, matching the source, where every read is a defaulted `.get`. -/
theorem c8_missing_data :
    (∀ s : TrackerState,
      processGameState emptySnap s = ({ s with previous_state := emptySnap }, [])) ∧
    (∀ s : TrackerState, s.map.phase ≠ "gameover" →
      processGameState hollowSnap s = ({ s with previous_state := hollowSnap }, [])) ∧
    (∀ (pd : PlayerSnap) (p : PlayerState),
      (pd.state.health = none → (updatedPlayer pd p).health = p.health) ∧
      (pd.state.round_kills = none → (updatedPlayer pd p).round_kills = p.round_kills) ∧
      (pd.match_stats.kills = none → (updatedPlayer pd p).kills = p.kills) ∧
      (pd.match_stats.deaths = none → (updatedPlayer pd p).deaths = p.deaths) ∧
      (pd.name = none → (updatedPlayer pd p).name = p.name) ∧
      (pd.weapons = [] → (updatedPlayer pd p).weapon = p.weapon)) ∧
    (∀ (rd : RoundSnap) (s : TrackerState),
      (rd.phase = none → (processRound rd s).1.round.phase = s.round.phase) ∧
      (rd.bomb = none → (processRound rd s).1.round.bomb = s.round.bomb)) ∧
    (∀ (md : MapSnap) (s : TrackerState),
      (md.phase = none → (processMap md s).1.map.phase = s.map.phase) ∧
      (md.round = none → (processMap md s).1.map.round = s.map.round)) := by
  refine ⟨fun s => rfl, ?_, ?_, ?_, ?_⟩
  · intro s h
    simp [processGameState, hollowSnap, processPlayer_hollow, processRound_hollow,
      processMap_hollow s h]
  · intro pd p
    refine ⟨?_, ?_, ?_, ?_, ?_, ?_⟩ <;> · intro h; simp [updatedPlayer, h, activeWeapon]
  · intro rd s
    constructor <;>
      · intro h
        unfold processRound emitRoundStartEvent
        dsimp only
        split_ifs <;> simp [h]
  · intro md s
    constructor <;> · intro h; simp [processMap, h]

/-- Witness for C8: from the initial state, a snapshot whose sections are
present but empty of watched keys changes nothing and emits nothing. -/
theorem c8_missing_data_witness :
    processGameState hollowSnap trackerInit
      = ({ trackerInit with previous_state := hollowSnap }, []) :=
  c8_missing_data.2.1 trackerInit (by decide)

/-
Part 2: the reaction dispatcher of `src/iris_brain.py`.

Embedding conventions, in addition to Part 1's:
- `EventType` members are passed around by their `.value` strings, exactly
  as `_can_respond` / `_mark_responded` / the cooldown dict do.
- `time.time()` is a `now : ℚ` parameter.  A method that consults the
  clock more than once in a single call (the reads are microseconds
  apart and only compared against multi-second cooldowns) receives one
  `now`.
- Each `random.random()` draw is an explicit `ℚ` parameter in [0,1); a
  `random.choice(lst)` is an arbitrary `Nat` index taken modulo the list
  length.  At most one mood draw is consumed per fallback call, so the
  sarcastic/excited branches share one parameter.
- The Groq LLM client is an external collaborator (the spec scopes the
  responder out); the embedding models the fallback path
  (`self.client = None`), which is the only path whose output the claims
  constrain.  The conversation history, logging and the usage-statistics
  counters are not modelled: no eligibility decision or returned value
  reads them.
-/

/-- Prefix test on character lists (`needle` against the front of the
second list). -/
def leadsWith : List Char → List Char → Bool
  | [], _ => true
  | _ :: _, [] => false
  | a :: as, b :: bs => a == b && leadsWith as bs

/-- Substring occurrence test on character lists. -/
def hasSub (needle : List Char) : List Char → Bool
  | [] => needle.isEmpty
  | c :: cs => leadsWith needle (c :: cs) || hasSub needle cs

/-- Python `w in s` (substring containment). -/
def strContains (s w : String) : Bool := hasSub w.data s.data

/-- Worker for `pyReplace`, structurally recursive on a fuel counter so
that it reduces inside the kernel; every step consumes at least one
character, so fuel `s.length` never runs out (the `0` case with a
non-empty list is unreachable). -/
def pyReplaceAux (pat rep : List Char) : Nat → List Char → List Char
  | _, [] => []
  | 0, s => s
  | fuel + 1, c :: cs =>
    if leadsWith pat (c :: cs) && !pat.isEmpty then
      rep ++ pyReplaceAux pat rep fuel (cs.drop (pat.length - 1))
    else c :: pyReplaceAux pat rep fuel cs

/-- Python `s.replace(pat, rep)` on character lists: leftmost,
non-overlapping, all occurrences (the empty-pattern corner of Python is
never exercised by the source, whose patterns are `"!"`, `"."` and
`"weapon_"`). -/
def pyReplace (pat rep s : List Char) : List Char := pyReplaceAux pat rep s.length s

/-- Python `s.replace(pat, rep)` on strings. -/
def pyReplaceStr (s pat rep : String) : String := ⟨pyReplace pat.data rep.data s.data⟩

/-- Python `s.strip()` (whitespace from both ends). -/
def pyStrip (s : String) : String :=
  ⟨((s.data.dropWhile Char.isWhitespace).reverse.dropWhile Char.isWhitespace).reverse⟩

/-- Uppercasing of a single character, mirroring `lowerChar`. -/
def upperChar (c : Char) : Char :=
  if 'a' ≤ c ∧ c ≤ 'z' then Char.ofNat (c.toNat - 32)
  else if 'а' ≤ c ∧ c ≤ 'я' then Char.ofNat (c.toNat - 32)
  else if c = 'ё' then 'Ё'
  else c

/-- Python `s.upper()[:1] + s[1:]` (first character uppercased; on
single-scalar alphabets `upper` is length-preserving). -/
def pyUpperFirst (s : String) : String :=
  match s.data with
  | [] => ⟨[]⟩
  | c :: cs => ⟨upperChar c :: cs⟩

/-- Python `d.get(k, default)` on an insertion-ordered association list. -/
def lookupD {α : Type} (l : List (String × α)) (k : String) (d : α) : α :=
  match l with
  | [] => d
  | (k', v) :: t => if k' = k then v else lookupD t k d

/-- Python `d[k] = v` on an insertion-ordered association list: update in place
if present, append otherwise (Python dict semantics). -/
def setKey {α : Type} (l : List (String × α)) (k : String) (v : α) : List (String × α) :=
  match l with
  | [] => [(k, v)]
  | (k', v') :: t => if k' = k then (k, v) :: t else (k', v') :: setKey t k v

/-- The `Mood` enum of `src/iris_brain.py`. -/
inductive Mood where
  | neutral | happy | excited | supportive | sarcastic | tense | funny
deriving DecidableEq

/-- The `EventType` enum of `src/iris_brain.py` — its complete list of
members; there is no `GENERAL` member. -/
inductive EventType where
  | kill | death | round_start | round_end
  | bomb_planted | bomb_defused | bomb_exploded
  | match_start | match_end
  | donation | subscription | raid
  | chat_message | command | random_comment
deriving DecidableEq

/-- The `.value` string of each `EventType` member. -/
def EventType.value : EventType → String
  | .kill => "kill"
  | .death => "death"
  | .round_start => "round_start"
  | .round_end => "round_end"
  | .bomb_planted => "bomb_planted"
  | .bomb_defused => "bomb_defused"
  | .bomb_exploded => "bomb_exploded"
  | .match_start => "match_start"
  | .match_end => "match_end"
  | .donation => "donation"
  | .subscription => "subscription"
  | .raid => "raid"
  | .chat_message => "chat_message"
  | .command => "command"
  | .random_comment => "random_comment"

/-- The `self.cooldowns` dict as built in `__init__` (seconds). -/
def cooldownsInit : List (String × ℚ) :=
  [(EventType.kill.value, 3), (EventType.death.value, 5), (EventType.round_end.value, 2),
   (EventType.bomb_planted.value, 10), (EventType.bomb_defused.value, 10),
   (EventType.bomb_exploded.value, 10), (EventType.chat_message.value, 8),
   (EventType.random_comment.value, 25), ("general", 12)]

/-- Source `self.response_templates` from `_load_response_templates`. -/
def responseTemplates : List (String × List String) :=
  [(EventType.kill.value,
    ["Красиво!", "Отличный выстрел!", "Так держать!",
     "Круто!", "Есть!", "Чисто!", "Без шансов!",
     "Разобрался!", "Фраг в копилку!", "Уложил!"]),
   (EventType.death.value,
    ["Бывает...", "Ничего, в следующий раз!", "Отомстим!",
     "Упс...", "Не расстраивайся!", "Не повезло...",
     "Жёстко...", "Такое случается", "Держись!", "Соберись!"]),
   (EventType.round_end.value,
    ["Хороший раунд!", "Продолжаем!", "Дальше будет лучше!",
     "Неплохо!", "Отлично сыграно!", "Команда молодец!",
     "Работаем дальше!", "Счёт пошёл!", "Заработали!"]),
   (EventType.bomb_planted.value,
    ["Бомба заложена! Напряжёнка!", "Бомба на точке! Время пошло!",
     "Заложили! Защищаем!", "Бомба установлена! Контролируем!"]),
   (EventType.bomb_defused.value,
    ["Бомба обезврежена! Красавцы!", "Дефуз! Отлично сработано!",
     "Спасли раунд!", "Обезвредили! Молодцы!"]),
   (EventType.bomb_exploded.value,
    ["Бомба взорвалась...", "Взрыв! Следующий раунд.",
     "Не успели...", "Взорвалось..."]),
   (EventType.donation.value,
    ["Спасибо за донат!", "Благодарю за поддержку!",
     "Вау, спасибо!", "Огромное спасибо!",
     "Ценим поддержку!", "Спасибо, очень приятно!"]),
   (EventType.chat_message.value,
    ["Привет!", "Спасибо за сообщение!", "Рада видеть!",
     "Здаров!", "Как дела?", "Добро пожаловать!"])]

/-- The mutable dispatcher state of `IrisBrain` that the eligibility,
marking and selection logic reads or writes (see the Part 2 header for
the deliberately unmodelled fields). `stats_kills` / `stats_streak` are
`self.player_stats.kills` / `.streak`. -/
structure BrainState where
  cooldowns : List (String × ℚ) := cooldownsInit
  last_response_times : List (String × ℚ) := []
  response_variety : List (String × Int) := []
  chat_activity : String := "normal"
  mood : Mood := .neutral
  stats_kills : Int := 0
  stats_streak : Int := 0
deriving DecidableEq

/-- The dispatcher state right after `__init__` (empty defaultdicts,
`chat_activity = 'normal'`, neutral mood). -/
def brainInit : BrainState := {}

/-- Source `_can_respond`: the cooldown check first (`.get` defaults: 10.0 for
an unknown kind, 0 for a never-fired kind), then — for `chat_message`
only — the chat-activity probabilistic gate on the draw `g`. -/
def canRespond (s : BrainState) (now g : ℚ) (event_str : String) : Bool :=
  let cooldown := lookupD s.cooldowns event_str 10
  let last_time := lookupD s.last_response_times event_str 0
  if now - last_time < cooldown then false
  else if event_str = EventType.chat_message.value then
    if s.chat_activity = "hyper" then decide (g < 1/10)
    else if s.chat_activity = "slow" then decide (g < 3/10)
    else decide (g < 2/10)
  else true

/-- Source `_mark_responded`. -/
def markResponded (s : BrainState) (event_str : String) (now : ℚ) : BrainState :=
  { s with last_response_times := setKey s.last_response_times event_str now }

/-- Expression `self.response_templates.get(event_str, ["Ок!", "Понятно!", "Хорошо!"])`. -/
def templatesFor (event_str : String) : List String :=
  lookupD responseTemplates event_str ["Ок!", "Понятно!", "Хорошо!"]

/-- Python `random.choice(l)` with the drawn position given as `i` (taken modulo
the length; the source never calls it on an empty list). -/
def pyChoice (l : List String) (i : Nat) : String := l.getD (i % l.length) ""

/-- Source `_generate_fallback_response`: random template for the kind, then the
mood modification (sarcastic: chained `.replace`; excited: uppercase the
first character and append `"!!!"`). -/
def generateFallbackResponse (s : BrainState) (idx : Nat) (md : ℚ) (event_str : String) : String :=
  let response := pyChoice (templatesFor event_str) idx
  if s.mood = Mood.sarcastic ∧ md > 1/2 then
    pyReplaceStr (pyReplaceStr response "!" "...") "." " конечно."
  else if s.mood = Mood.excited ∧ md > 1/2 then
    pyUpperFirst response ++ "!!!"
  else response

/-- Source `generate_response`: unless `force` is set, the whole `_can_respond`
check gates the call; then the (fallback) response is produced, and a
non-empty response is marked in `last_response_times`.  The `prompt`
argument is consumed only by the unmodelled LLM path and conversation
history. -/
def generateResponse (s : BrainState) (now g : ℚ) (idx : Nat) (md : ℚ)
    (prompt : String) (event_str : String) (force : Bool) : BrainState × Option String :=
  if !force && !(canRespond s now g event_str) then (s, none)
  else
    let response := generateFallbackResponse s idx md event_str
    if response = "" then (s, some response)
    else (markResponded s event_str now, some response)

/-- The `kill_data` dict consumed by `react_to_kill`; every key is read
with a `.get` default. -/
structure KillData where
  round_kills : Option Int := none
  kill_streak : Option Int := none
  headshot : Option Bool := none
  weapon : Option String := none
  ace : Option Bool := none
  clutch : Option Bool := none
  victim : Option String := none
deriving DecidableEq

/-- Expression `kill_data.get('weapon', 'unknown').replace('weapon_', '')`. -/
def weaponOf (kd : KillData) : String := pyReplaceStr (kd.weapon.getD "unknown") "weapon_" ""

/-- The five ordinary-kill prompt variants of `react_to_kill`. -/
def ordinaryKillPrompts (victim weapon : String) : List String :=
  ["Игрок убил " ++ victim ++ " с " ++ weapon ++ ". Можешь кратко прокомментировать.",
   "Ещё один фраг в коллекцию. Оружие: " ++ weapon ++ ".",
   "Убийство. Игрок продолжает собирать статистику.",
   "Фраг! " ++ victim ++ " отправлен на respawn.",
   "Килл. Игра продолжается."]

/-- The prompt-selection ladder of `react_to_kill` (lines 549-574).  Only
the final, ordinary-kill branch consults and increments the
`response_variety['kill']` rotation counter; the returned state carries
that increment. -/
def killPrompt (s : BrainState) (kd : KillData) : String × BrainState :=
  let round_kills := kd.round_kills.getD 1
  let kill_streak := kd.kill_streak.getD 1
  let is_headshot := kd.headshot.getD false
  let weapon := weaponOf kd
  let is_ace := kd.ace.getD false
  let is_clutch := kd.clutch.getD false
  let victim := kd.victim.getD "противник"
  if is_ace then
    ("Игрок только что сделал ACE! Убил всех 5 врагов в раунде! Это невероятно! Дай эпичную реакцию.", s)
  else if round_kills ≥ 4 then
    ("Игрок убил 4 врагов в этом раунде! Остался последний! Реагируй с волнением.", s)
  else if round_kills ≥ 3 then
    ("Тройное убийство! Игрок в ярости! Кратко прокомментируй.", s)
  else if is_clutch then
    ("Clutch ситуация! Игрок в одиночку против нескольких и только что убил одного! Напряжение зашкаливает!", s)
  else if is_headshot then
    ("Точный хедшот с " ++ weapon ++ "! Чистый выстрел в голову. Прокомментируй.", s)
  else if kill_streak ≥ 3 then
    ("Игрок на серии из " ++ toString kill_streak ++ " убийств! Он в ударе! Поддержи его.", s)
  else
    let variety := lookupD s.response_variety "kill" 0 % 5
    let bumped := setKey s.response_variety "kill" (lookupD s.response_variety "kill" 0 + 1)
    ((ordinaryKillPrompts victim weapon).getD variety.toNat "",
     { s with response_variety := bumped })

/-- Source `react_to_kill`: select the prompt, bump the player-stat counters,
and hand the prompt to `generate_response` with the `kill` kind (the
`recent_events` context append is unmodelled, see the Part 2 header). -/
def reactToKill (s : BrainState) (kd : KillData) (now g : ℚ) (idx : Nat) (md : ℚ) :
    BrainState × Option String :=
  let pr := killPrompt s kd
  let s2 := { pr.2 with stats_kills := pr.2.stats_kills + 1,
                        stats_streak := pr.2.stats_streak + 1 }
  generateResponse s2 now g idx md pr.1 EventType.kill.value false

/-- The `chat_data` dict consumed by `react_to_chat_message`. -/
structure ChatData where
  username : Option String := none
  message : Option String := none
deriving DecidableEq

/-- The name-mention keyword list of `react_to_chat_message`. -/
def irisKeywords : List String := ["ирис", "iris", "ириска", "иришечка", "iris brain"]

/-- Expression `any(word in message.lower() for word in [...])`. -/
def irisMentioned (message : String) : Bool :=
  irisKeywords.any fun w => strContains (pyLower message) w

/-- Source `react_to_chat_message`: drop empty/short messages; a name mention
forces `should_respond`, a command is ignored, otherwise a 15% draw
(`d15`) decides; then the explicit `_can_respond` check (draw `g1`), and
finally `generate_response` — which runs `_can_respond` a second time
(draw `g2`) because `force` is not set. -/
def reactToChatMessage (s : BrainState) (cd : ChatData) (now d15 g1 g2 : ℚ)
    (idx : Nat) (md : ℚ) : BrainState × Option String :=
  let username := cd.username.getD "Аноним"
  let message := cd.message.getD ""
  if message = "" ∨ (pyStrip message).length < 2 then (s, none)
  else
    let is_command := leadsWith "!".data message.data && decide (message.length > 2)
    let should_respond : Bool :=
      if irisMentioned message then true
      else if is_command then false
      else decide (d15 < 15/100)
    if should_respond = false then (s, none)
    else
      let prompt := "Зритель " ++ username ++ " написал в чат: \"" ++ message ++ "\"" ++
        (if irisMentioned message then
          "\nОн обратился к тебе напрямю! Ответь вежливо и по делу."
         else
          "\nМожешь ответить кратко, если есть что сказать интересного.")
      if canRespond s now g1 EventType.chat_message.value = false then (s, none)
      else generateResponse s now g2 idx md prompt EventType.chat_message.value false

/-- The greeting keyword list of `chat_with_user`. -/
def greetingWords : List String := ["привет", "здаров", "hi", "hello"]

/-- The how-are-you keyword list of `chat_with_user`. -/
def howAreWords : List String := ["как дела", "как ты", "how are"]

/-- Source `chat_with_user`: classify the message, then call `generate_response`
with `force=True`.  The final `else` branch of the source evaluates
`EventType.GENERAL`; the `EventType` enum above (the source's complete
member list) has no such member, so in Python the attribute access raises
`AttributeError` before any response is produced — modelled as
`Except.error`. -/
def chatWithUser (s : BrainState) (user_message username : String) (now g : ℚ)
    (idx : Nat) (md : ℚ) : Except String (BrainState × Option String) :=
  let prompt := username ++ " говорит тебе: " ++ user_message
  let user_lower := pyLower user_message
  if greetingWords.any (fun w => strContains user_lower w) then
    .ok (generateResponse { s with mood := Mood.happy } now g idx md prompt
          EventType.chat_message.value true)
  else if howAreWords.any (fun w => strContains user_lower w) then
    .ok (generateResponse s now g idx md prompt EventType.chat_message.value true)
  else if strContains user_message "?" then
    .ok (generateResponse s now g idx md prompt EventType.command.value true)
  else
    .error "AttributeError: type object EventType has no attribute GENERAL"

lemma lookupD_setKey_self {α : Type} (l : List (String × α)) (k : String) (v : α) (d : α) :
    lookupD (setKey l k v) k d = v := by
  induction l with
  | nil => simp [setKey, lookupD]
  | cons p t ih =>
    obtain ⟨k', v'⟩ := p
    by_cases hk : k' = k <;> simp [setKey, lookupD, hk, ih]

lemma setKey_cooldowns (s : BrainState) (k : String) (v : ℚ) :
    (markResponded s k v).cooldowns = s.cooldowns := rfl

lemma templatesFor_sound (e : String) :
    0 < (templatesFor e).length ∧ (templatesFor e).all (fun t => !(t == "")) = true := by
  unfold templatesFor responseTemplates
  simp only [lookupD]
  split_ifs <;> decide

lemma getD_ne_of_all (l : List String) (hall : l.all (fun t => !(t == "")) = true)
    (i : Nat) (hi : i < l.length) (d : String) : l.getD i d ≠ "" := by
  induction l generalizing i with
  | nil => simp at hi
  | cons a t ih =>
    simp only [List.all_cons, Bool.and_eq_true] at hall
    cases i with
    | zero =>
      simp only [List.getD_cons_zero]
      simpa using hall.1
    | succ n =>
      simp only [List.getD_cons_succ]
      exact ih hall.2 n (by simpa using hi)

lemma pyChoice_ne (l : List String) (h0 : 0 < l.length)
    (hall : l.all (fun t => !(t == "")) = true) (i : Nat) : pyChoice l i ≠ "" :=
  getD_ne_of_all l hall (i % l.length) (Nat.mod_lt _ h0) ""

lemma pyReplaceAux_ne_nil (pat rep : List Char) (hrep : rep ≠ []) (fuel : Nat)
    (s : List Char) (hs : s ≠ []) : pyReplaceAux pat rep fuel s ≠ [] := by
  cases fuel with
  | zero => cases s with
    | nil => exact absurd rfl hs
    | cons c cs => simp [pyReplaceAux]
  | succ n => cases s with
    | nil => exact absurd rfl hs
    | cons c cs =>
      unfold pyReplaceAux
      split <;> simp [hrep]

lemma pyReplaceStr_ne (s pat rep : String) (hrep : rep ≠ "") (hs : s ≠ "") :
    pyReplaceStr s pat rep ≠ "" := by
  intro hcon
  have hd : pyReplace pat.data rep.data s.data = [] := congrArg String.data hcon
  have hrep' : rep.data ≠ [] := fun h => hrep (congrArg String.mk h : (⟨rep.data⟩ : String) = "")
  have hs' : s.data ≠ [] := fun h => hs (congrArg String.mk h : (⟨s.data⟩ : String) = "")
  exact pyReplaceAux_ne_nil pat.data rep.data hrep' s.data.length s.data hs' hd

lemma pyUpperFirst_bang_ne (r : String) : pyUpperFirst r ++ "!!!" ≠ "" := by
  intro hcon
  have hd : (pyUpperFirst r).data ++ "!!!".data = [] := congrArg String.data hcon
  simp at hd

lemma generateFallbackResponse_ne (s : BrainState) (idx : Nat) (md : ℚ) (e : String) :
    generateFallbackResponse s idx md e ≠ "" := by
  obtain ⟨h0, hall⟩ := templatesFor_sound e
  have hresp := pyChoice_ne (templatesFor e) h0 hall idx
  unfold generateFallbackResponse
  dsimp only
  split_ifs
  · exact pyReplaceStr_ne _ _ _ (by decide) (pyReplaceStr_ne _ _ _ (by decide) hresp)
  · exact pyUpperFirst_bang_ne _
  · exact hresp

lemma generateFallbackResponse_mood (s s' : BrainState) (idx : Nat) (md : ℚ) (e : String)
    (h : s.mood = s'.mood) :
    generateFallbackResponse s idx md e = generateFallbackResponse s' idx md e := by
  unfold generateFallbackResponse
  rw [h]

lemma generateResponse_eligible (s : BrainState) (now g : ℚ) (idx : Nat) (md : ℚ)
    (prompt etype : String) (h : canRespond s now g etype = true) :
    generateResponse s now g idx md prompt etype false
      = (markResponded s etype now, some (generateFallbackResponse s idx md etype)) := by
  unfold generateResponse
  simp [h, generateFallbackResponse_ne s idx md etype]

lemma generateResponse_blocked (s : BrainState) (now g : ℚ) (idx : Nat) (md : ℚ)
    (prompt etype : String) (h : canRespond s now g etype = false) :
    generateResponse s now g idx md prompt etype false = (s, none) := by
  unfold generateResponse
  simp [h]

lemma generateResponse_forced (s : BrainState) (now g : ℚ) (idx : Nat) (md : ℚ)
    (prompt etype : String) :
    generateResponse s now g idx md prompt etype true
      = (markResponded s etype now, some (generateFallbackResponse s idx md etype)) := by
  unfold generateResponse
  simp [generateFallbackResponse_ne s idx md etype]

lemma cooldownsInit_pos (k : String) : 0 < lookupD cooldownsInit k 10 := by
  unfold cooldownsInit
  simp only [lookupD]
  split_ifs <;> norm_num

/-- A dispatcher state in hyper chat activity whose `chat_message`
cooldown is still running at `now = 100`. -/
def c2State : BrainState :=
  { brainInit with chat_activity := "hyper",
                   last_response_times := [(EventType.chat_message.value, 95)] }

/-- C2 counterexample: the claim says `force=true` bypasses only the
cooldown and still applies the chat-activity gate.  With a gate draw of
0.99 — which the hyper-activity gate rejects whenever it is actually
consulted (middle conjunct: the same draw with no cooldown obstacle and
no force yields nothing) — a `force=true` call nevertheless returns a
response: `force` skips the whole `_can_respond` check, gate included. -/
theorem c2_counterexample :
    (generateResponse c2State 100 (99/100) 0 0 "p" EventType.chat_message.value true).2.isSome
      = true ∧
    canRespond { c2State with last_response_times := [(EventType.chat_message.value, 0)] }
        100 (99/100) EventType.chat_message.value = false ∧
    (generateResponse { c2State with last_response_times := [(EventType.chat_message.value, 0)] }
        100 (99/100) 0 0 "p" EventType.chat_message.value false).2 = none := by
  have hcan : canRespond
      { c2State with last_response_times := [(EventType.chat_message.value, 0)] }
      100 (99/100) EventType.chat_message.value = false := by
    simp [canRespond, c2State, brainInit, lookupD, cooldownsInit, EventType.value]
    norm_num
  refine ⟨?_, hcan, ?_⟩
  · rw [generateResponse_forced]
    rfl
  · rw [generateResponse_blocked _ _ _ _ _ _ _ hcan]

/-- C2 (amended): `force=true` bypasses the entire `_can_respond`
eligibility check — the cooldown *and* the chat-activity probabilistic
gate.  The outcome of a forced call does not depend on the gate draw, nor
on the recorded last-fired timestamps; it always returns a response. -/
theorem c2_force_bypasses_both (s : BrainState) (now g g' : ℚ) (idx : Nat) (md : ℚ)
    (prompt etype : String) (L : List (String × ℚ)) :
    generateResponse s now g idx md prompt etype true
      = generateResponse s now g' idx md prompt etype true ∧
    (generateResponse { s with last_response_times := L } now g idx md prompt etype true).2
      = (generateResponse s now g idx md prompt etype true).2 ∧
    (generateResponse s now g idx md prompt etype true).2.isSome = true := by
  refine ⟨?_, ?_, ?_⟩
  · rw [generateResponse_forced, generateResponse_forced]
  · rw [generateResponse_forced, generateResponse_forced]
    dsimp only
    rw [generateFallbackResponse_mood { s with last_response_times := L } s idx md etype rfl]
  · rw [generateResponse_forced]
    rfl

/-- C5 counterexample: the claim quantifies over every EventKind, but for
`chat_message` the additional probabilistic gate can reject even a call
made well past the cooldown: here the first call (eligible, lucky draw
0.01) responds, and a second call 100 s later — far beyond the 8 s
cooldown — returns nothing on draw 0.99. -/
theorem c5_counterexample :
    (generateResponse brainInit 100 (1/100) 0 0 "p" EventType.chat_message.value false).2.isSome
      = true ∧
    (generateResponse
        (generateResponse brainInit 100 (1/100) 0 0 "p" EventType.chat_message.value false).1
        200 (99/100) 0 0 "p" EventType.chat_message.value false).2 = none ∧
    lookupD brainInit.cooldowns EventType.chat_message.value 10 < (200 : ℚ) - 100 := by
  have hcan1 : canRespond brainInit 100 (1/100) EventType.chat_message.value = true := by
    simp [canRespond, brainInit, lookupD, cooldownsInit, EventType.value]
    norm_num
  rw [generateResponse_eligible _ _ _ _ _ _ _ hcan1]
  have hcan2 : canRespond (markResponded brainInit EventType.chat_message.value 100)
      200 (99/100) EventType.chat_message.value = false := by
    simp [canRespond, markResponded, setKey, brainInit, lookupD, cooldownsInit, EventType.value]
    norm_num
  refine ⟨rfl, ?_, ?_⟩
  · rw [generateResponse_blocked _ _ _ _ _ _ _ hcan2]
  · simp [brainInit, lookupD, cooldownsInit, EventType.value]
    norm_num

/-- C5 (amended): for every event kind other than `chat_message` (whose
probabilistic gate may additionally reject, see the counterexample), an
eligible first call responds and is marked; a second call within the
kind's cooldown returns nothing; a second call after more than the
cooldown responds; and a second `force=true` call responds regardless. -/
theorem c5_cooldown_gate (s : BrainState) (now1 now2 g1 g2 : ℚ) (i1 i2 : Nat) (m1 m2 : ℚ)
    (p1 p2 etype : String)
    (hnc : etype ≠ EventType.chat_message.value)
    (helig : lookupD s.last_response_times etype 0 + lookupD s.cooldowns etype 10 ≤ now1) :
    (generateResponse s now1 g1 i1 m1 p1 etype false).2.isSome = true ∧
    (now2 - now1 < lookupD s.cooldowns etype 10 →
      (generateResponse (generateResponse s now1 g1 i1 m1 p1 etype false).1
        now2 g2 i2 m2 p2 etype false).2 = none) ∧
    (lookupD s.cooldowns etype 10 < now2 - now1 →
      (generateResponse (generateResponse s now1 g1 i1 m1 p1 etype false).1
        now2 g2 i2 m2 p2 etype false).2.isSome = true) ∧
    (generateResponse (generateResponse s now1 g1 i1 m1 p1 etype false).1
        now2 g2 i2 m2 p2 etype true).2.isSome = true := by
  have hcan1 : canRespond s now1 g1 etype = true := by
    unfold canRespond
    dsimp only
    rw [if_neg (by linarith), if_neg hnc]
  rw [generateResponse_eligible s now1 g1 i1 m1 p1 etype hcan1]
  refine ⟨rfl, ?_, ?_, ?_⟩
  · intro hlt
    have hcan2 : canRespond (markResponded s etype now1) now2 g2 etype = false := by
      unfold canRespond markResponded
      dsimp only
      rw [lookupD_setKey_self, if_pos hlt]
    rw [generateResponse_blocked _ now2 g2 i2 m2 p2 etype hcan2]
  · intro hgt
    have hcan2 : canRespond (markResponded s etype now1) now2 g2 etype = true := by
      unfold canRespond markResponded
      dsimp only
      rw [lookupD_setKey_self, if_neg (by linarith), if_neg hnc]
    rw [generateResponse_eligible _ now2 g2 i2 m2 p2 etype hcan2]
    rfl
  · rw [generateResponse_forced]
    rfl

/-- Witness for C5 (amended): from the initial state, kind `death`
(cooldown 5 s), first call at t=10, second at t=12. -/
theorem c5_cooldown_gate_witness :
    (generateResponse brainInit 10 0 0 0 "p" EventType.death.value false).2.isSome = true ∧
    ((12 : ℚ) - 10 < lookupD brainInit.cooldowns EventType.death.value 10 →
      (generateResponse (generateResponse brainInit 10 0 0 0 "p" EventType.death.value false).1
        12 0 0 0 "p" EventType.death.value false).2 = none) ∧
    (lookupD brainInit.cooldowns EventType.death.value 10 < (12 : ℚ) - 10 →
      (generateResponse (generateResponse brainInit 10 0 0 0 "p" EventType.death.value false).1
        12 0 0 0 "p" EventType.death.value false).2.isSome = true) ∧
    (generateResponse (generateResponse brainInit 10 0 0 0 "p" EventType.death.value false).1
        12 0 0 0 "p" EventType.death.value true).2.isSome = true :=
  c5_cooldown_gate brainInit 10 12 0 0 0 0 0 0 "p" "p" EventType.death.value
    (by decide)
    (by simp [brainInit, lookupD, cooldownsInit, EventType.value]; norm_num)

/-- C9: a last-fired timestamp in the future (negative elapsed time) is
rejected by the cooldown check — with the configured cooldown table every
entry (and the 10 s default) is positive, so a negative elapsed time is
always below the cooldown and never behaves like a long elapsed time. -/
theorem c9_negative_elapsed (s : BrainState) (now g : ℚ) (idx : Nat) (md : ℚ)
    (prompt etype : String)
    (hcfg : s.cooldowns = cooldownsInit)
    (hfuture : now < lookupD s.last_response_times etype 0) :
    canRespond s now g etype = false ∧
    generateResponse s now g idx md prompt etype false = (s, none) := by
  have hcan : canRespond s now g etype = false := by
    unfold canRespond
    dsimp only
    rw [if_pos]
    have := cooldownsInit_pos etype
    rw [hcfg]
    linarith
  exact ⟨hcan, generateResponse_blocked s now g idx md prompt etype hcan⟩

/-- C7 counterexample: the claim says template selection for every kind
uses the per-kind rotation counter mod N.  `_generate_fallback_response`
uses `random.choice`: two consecutive eligible fires of
`bomb_planted` (4 templates) with the same random position return the
same template — a repeat after only 2 of 4 — and no rotation counter is
consulted or incremented. -/
theorem c7_counterexample :
    (generateResponse brainInit 100 0 0 0 "p" EventType.bomb_planted.value false).2
      = some "Бомба заложена! Напряжёнка!" ∧
    (generateResponse (generateResponse brainInit 100 0 0 0 "p"
        EventType.bomb_planted.value false).1
        200 0 0 0 "p" EventType.bomb_planted.value false).2
      = some "Бомба заложена! Напряжёнка!" ∧
    (templatesFor EventType.bomb_planted.value).length = 4 ∧
    (generateResponse (generateResponse brainInit 100 0 0 0 "p"
        EventType.bomb_planted.value false).1
        200 0 0 0 "p" EventType.bomb_planted.value false).1.response_variety
      = brainInit.response_variety := by
  have hcan1 : canRespond brainInit 100 0 EventType.bomb_planted.value = true := by
    simp [canRespond, brainInit, lookupD, cooldownsInit, EventType.value]
    norm_num
  rw [generateResponse_eligible _ _ _ _ _ _ _ hcan1]
  dsimp only
  have hcan2 : canRespond (markResponded brainInit EventType.bomb_planted.value 100)
      200 0 EventType.bomb_planted.value = true := by
    simp [canRespond, markResponded, setKey, brainInit, lookupD, cooldownsInit,
      EventType.value]
    norm_num
  rw [generateResponse_eligible _ _ _ _ _ _ _ hcan2]
  have hfb : ∀ t : BrainState, t.mood = Mood.neutral →
      generateFallbackResponse t 0 0 EventType.bomb_planted.value
        = "Бомба заложена! Напряжёнка!" := by
    intro t ht
    simp [generateFallbackResponse, ht, pyChoice, templatesFor, responseTemplates,
      lookupD, EventType.value]
  exact ⟨by rw [hfb brainInit rfl], by rw [hfb _ rfl], rfl, rfl⟩

/-- C7 (amended): rotation-without-repeat holds only for the
ordinary-kill prompt ladder of `react_to_kill`: there the prompt is
`prompts[counter % 5]` and the counter is incremented, so consecutive
ordinary kills walk all five variants before repeating; the per-kind
fallback template lists are instead drawn at random (see the
counterexample). -/
theorem c7_kill_prompt_rotation (s : BrainState) (kd : KillData)
    (hace : kd.ace.getD false = false)
    (hrk : kd.round_kills.getD 1 < 3)
    (hcl : kd.clutch.getD false = false)
    (hhs : kd.headshot.getD false = false)
    (hks : kd.kill_streak.getD 1 < 3) :
    (killPrompt s kd).1
      = (ordinaryKillPrompts (kd.victim.getD "противник") (weaponOf kd)).getD
          ((lookupD s.response_variety "kill" 0 % 5).toNat) "" ∧
    lookupD (killPrompt s kd).2.response_variety "kill" 0
      = lookupD s.response_variety "kill" 0 + 1 ∧
    (ordinaryKillPrompts (kd.victim.getD "противник") (weaponOf kd)).length = 5 ∧
    (∀ (c : Int) (i j : Nat), i < 5 → j < 5 → (c + i) % 5 = (c + j) % 5 → i = j) := by
  have h : killPrompt s kd
      = ((ordinaryKillPrompts (kd.victim.getD "противник") (weaponOf kd)).getD
           ((lookupD s.response_variety "kill" 0 % 5).toNat) "",
         { s with response_variety :=
             setKey s.response_variety "kill" (lookupD s.response_variety "kill" 0 + 1) }) := by
    unfold killPrompt
    dsimp only
    rw [if_neg (by simp [hace]), if_neg (by omega), if_neg (by omega),
        if_neg (by simp [hcl]), if_neg (by simp [hhs]), if_neg (by omega)]
  refine ⟨by rw [h], ?_, rfl, ?_⟩
  · rw [h]
    exact lookupD_setKey_self s.response_variety "kill" _ 0
  · intro c i j hi hj hm
    omega

/-- Witness for C7 (amended): an all-default `kill_data` takes the
ordinary branch; from the initial state the counter is 0, the first
prompt variant is chosen, and the counter advances to 1. -/
theorem c7_kill_prompt_rotation_witness :
    ((killPrompt brainInit {}).1
      = (ordinaryKillPrompts (({} : KillData).victim.getD "противник") (weaponOf {})).getD
          ((lookupD brainInit.response_variety "kill" 0 % 5).toNat) "" ∧
    lookupD (killPrompt brainInit {}).2.response_variety "kill" 0
      = lookupD brainInit.response_variety "kill" 0 + 1 ∧
    (ordinaryKillPrompts (({} : KillData).victim.getD "противник") (weaponOf {})).length = 5 ∧
    (∀ (c : Int) (i j : Nat), i < 5 → j < 5 → (c + i) % 5 = (c + j) % 5 → i = j)) ∧
    (killPrompt brainInit {}).1
      = "Игрок убил противник с unknown. Можешь кратко прокомментировать." :=
  ⟨c7_kill_prompt_rotation brainInit {} (by decide) (by decide) (by decide)
     (by decide) (by decide),
   by decide⟩

/-- C3 counterexample: a message that explicitly mentions the assistant
("ирис привет"), with the chat cooldown long expired, is rejected purely
by the chat-activity random gate (draw 0.99 in normal activity); the same
call with draw 0.01 responds.  The claim that only the cooldown may
reject a mentioning message is false. -/
theorem c3_counterexample :
    (reactToChatMessage brainInit ⟨some "зритель", some "ирис привет"⟩
        100 1 (99/100) (99/100) 0 0).2 = none ∧
    (reactToChatMessage brainInit ⟨some "зритель", some "ирис привет"⟩
        100 1 (1/100) (1/100) 0 0).2.isSome = true := by
  have hshort : ¬(("ирис привет" : String) = "" ∨ (pyStrip "ирис привет").length < 2) := by
    decide
  have hm : irisMentioned "ирис привет" = true := by decide
  have hcanF : canRespond brainInit 100 (99/100) EventType.chat_message.value = false := by
    simp [canRespond, brainInit, lookupD, cooldownsInit, EventType.value]
    norm_num
  have hcanT : canRespond brainInit 100 (1/100) EventType.chat_message.value = true := by
    simp [canRespond, brainInit, lookupD, cooldownsInit, EventType.value]
    norm_num
  constructor
  · simp [reactToChatMessage, hshort, hm, hcanF]
  · simp only [reactToChatMessage, hshort, hm, hcanT]
    simp only [Option.getD_some]
    rw [if_neg (by decide)]
    simp only [hm, if_true]
    rw [if_neg (by simp [hcanT])]
    rw [generateResponse_eligible _ _ _ _ _ _ _ hcanT]
    rfl

/-- C3 (amended): a name mention bypasses only the 15% random pre-filter
of `react_to_chat_message` — the outcome does not depend on that draw —
while the chat-activity probabilistic gate inside `_can_respond` is still
applied to mentioning messages (see the counterexample). -/
theorem c3_mention_bypasses_prefilter (s : BrainState) (cd : ChatData)
    (now d15 d15' g1 g2 : ℚ) (idx : Nat) (md : ℚ)
    (hm : irisMentioned (cd.message.getD "") = true) :
    reactToChatMessage s cd now d15 g1 g2 idx md
      = reactToChatMessage s cd now d15' g1 g2 idx md := by
  unfold reactToChatMessage
  dsimp only
  simp only [hm, if_true]

/-- Witness for C3 (amended): for the mentioning message "ирис привет"
the pre-filter draw (0 vs 1) does not change the outcome. -/
theorem c3_mention_bypasses_prefilter_witness :
    irisMentioned ((⟨some "зритель", some "ирис привет"⟩ : ChatData).message.getD "") = true ∧
    reactToChatMessage brainInit ⟨some "зритель", some "ирис привет"⟩ 100 0 (1/100) (1/100) 0 0
      = reactToChatMessage brainInit ⟨some "зритель", some "ирис привет"⟩ 100 1 (1/100) (1/100) 0 0 :=
  ⟨by decide,
   c3_mention_bypasses_prefilter brainInit ⟨some "зритель", some "ирис привет"⟩
     100 0 1 (1/100) (1/100) 0 0 (by decide)⟩

/-- C10: any user message to `chat_with_user` without a greeting keyword,
a how-are-you phrase, or a `?` reaches the branch that evaluates
`EventType.GENERAL`, which is not a member of the enum: the call raises
`AttributeError` instead of returning a reply. -/
theorem c10_general_crash (s : BrainState) (user_message username : String) (now g : ℚ)
    (idx : Nat) (md : ℚ)
    (h1 : greetingWords.any (fun w => strContains (pyLower user_message) w) = false)
    (h2 : howAreWords.any (fun w => strContains (pyLower user_message) w) = false)
    (h3 : strContains user_message "?" = false) :
    chatWithUser s user_message username now g idx md
      = .error "AttributeError: type object EventType has no attribute GENERAL" := by
  unfold chatWithUser
  dsimp only
  rw [if_neg (by simp [h1]), if_neg (by simp [h2]), if_neg (by simp [h3])]

/-- Witness for C10: the message "го катку" (no greeting, no how-are-you,
no question mark) crashes `chat_with_user`. -/
theorem c10_general_crash_witness :
    chatWithUser brainInit "го катку" "стример" 0 0 0 0
      = .error "AttributeError: type object EventType has no attribute GENERAL" :=
  c10_general_crash brainInit "го катку" "стример" 0 0 0 0
    (by decide) (by decide) (by decide)

/-- Witness for C9: `kill` last fired at t=100, clock now reads t=50. -/
theorem c9_negative_elapsed_witness :
    canRespond { brainInit with last_response_times := [(EventType.kill.value, 100)] }
        50 0 EventType.kill.value = false ∧
    generateResponse { brainInit with last_response_times := [(EventType.kill.value, 100)] }
        50 0 0 0 "p" EventType.kill.value false
      = ({ brainInit with last_response_times := [(EventType.kill.value, 100)] }, none) :=
  c9_negative_elapsed _ 50 0 0 0 "p" EventType.kill.value rfl
    (by simp [lookupD, EventType.value]; norm_num)

end IrisSpec
